import Mathlib

/-!
Shallow embedding of the SIP-calculator projection engine
(`src/js/calculations.js`) and proofs of the specification claims.

Money amounts and rates are modelled as exact rationals (`ℚ`); the one
inherently real-valued operation, the fractional power inside
`calculateEffectiveRate` (and the fractional-year inflation factor of the
flexible calculator), is modelled over `ℝ`.  JavaScript divisions whose
denominator can be zero — where JS silently produces the non-finite values
`Infinity`/`NaN` — are modelled with `jsDiv`, which returns `none` for a
zero denominator; every other division in the source has a provably
positive denominator and is modelled with exact rational division.
-/

namespace SIPCalc

/-- An entry of a user-supplied freeform (flexible) monthly-amounts array:
either a numeric value or a non-numeric/blank entry (which JS's
`parseFloat` turns into `NaN`). -/
inductive JSEntry where
  | num (q : ℚ)
  | nonNum
  deriving DecidableEq

/-- `parseFloat(amount) || 0`: a numeric entry keeps its value, a
non-numeric or blank entry coerces to `0`. -/
def jsNum : JSEntry → ℚ
  | .num q => q
  | .nonNum => 0

/-- JavaScript division with the non-finite outcomes of a zero denominator
(`Infinity`, `NaN`) represented as `none`. -/
def jsDiv (a b : ℚ) : Option ℚ := if b = 0 then none else some (a / b)

/-- The `returnRates` table appearing verbatim in both `calculateRegularSIP`
and `calculateGoalBasedSIP`: `{large: 0.10, mid: 0.12, small: 0.15}`.
Lookup of any other key yields `undefined` (`none`). -/
def returnRates (category : String) : Option ℚ :=
  if category = "large" then some (10 / 100)
  else if category = "mid" then some (12 / 100)
  else if category = "small" then some (15 / 100)
  else none

/-- `returnRates[category] || 0.12` — every rate in the table is nonzero,
so the JS `||` fallback fires exactly on a missing key. -/
def annualRateOf (category : String) : ℚ := (returnRates category).getD (12 / 100)

/-- `monthlyRate = annualRate / 12` as computed in `calculateRegularSIP`
and `calculateGoalBasedSIP`. -/
def monthlyRateOf (category : String) : ℚ := annualRateOf category / 12

/-- `calculateEffectiveRate(totalValue, totalInvestment, years)`:
returns `0` when `totalInvestment <= 0 || years <= 0`, otherwise
`(Math.pow(totalValue / totalInvestment, 1 / years) - 1) * 100`. -/
noncomputable def calculateEffectiveRate (totalValue totalInvestment years : ℝ) : ℝ :=
  if totalInvestment ≤ 0 ∨ years ≤ 0 then 0
  else ((totalValue / totalInvestment) ^ (1 / years) - 1) * 100

/-- One element of the `yearlyBreakdown` array built by `calculateRegularSIP`. -/
structure RegularYearEntry where
  year : ℕ
  investment : ℚ
  value : ℚ
  returns : ℚ
  deriving DecidableEq

/-- The result object of `calculateRegularSIP`. -/
structure RegularResult where
  type : String
  category : String
  totalInvestment : ℚ
  futureValue : ℚ
  returns : ℚ
  inflationAdjustedValue : ℚ
  realReturns : ℚ
  effectiveRate : ℝ
  annualRate : ℚ
  yearlyBreakdown : List RegularYearEntry
  monthlyAmount : ℚ
  years : ℕ
  months : ℕ

/-- `calculateRegularSIP(monthlyAmount, years, category, inflationRate)`.
The investment period is in whole years, so `months = years * 12`. -/
noncomputable def calculateRegularSIP (monthlyAmount : ℚ) (years : ℕ) (category : String)
    (inflationRate : ℚ := 0) : RegularResult :=
  let months := years * 12
  let annualRate := annualRateOf category
  let monthlyRate := annualRate / 12
  let futureValue :=
    monthlyAmount * (((1 + monthlyRate) ^ months - 1) / monthlyRate) * (1 + monthlyRate)
  let totalInvestment := monthlyAmount * (months : ℚ)
  let returns := futureValue - totalInvestment
  let inflationAdjustedValue :=
    if 0 < inflationRate then futureValue / (1 + inflationRate / 100) ^ years else futureValue
  let realReturns :=
    if 0 < inflationRate then
      (futureValue / (1 + inflationRate / 100) ^ years) - totalInvestment
    else returns
  let effectiveRate :=
    calculateEffectiveRate (futureValue : ℝ) (totalInvestment : ℝ) (years : ℝ)
  let yearlyBreakdown := (List.range years).map (fun i =>
    let year := i + 1
    let monthsCompleted : ℕ := year * 12
    let cumulativeInvestment := monthlyAmount * (monthsCompleted : ℚ)
    let cumulativeValue :=
      monthlyAmount * (((1 + monthlyRate) ^ monthsCompleted - 1) / monthlyRate) * (1 + monthlyRate)
    { year := year, investment := cumulativeInvestment, value := cumulativeValue,
      returns := cumulativeValue - cumulativeInvestment })
  { type := "Regular SIP"
    category := category.capitalize ++ " Cap"
    totalInvestment := totalInvestment
    futureValue := futureValue
    returns := returns
    inflationAdjustedValue := inflationAdjustedValue
    realReturns := realReturns
    effectiveRate := effectiveRate
    annualRate := annualRate * 100
    yearlyBreakdown := yearlyBreakdown
    monthlyAmount := monthlyAmount
    years := years
    months := months }

@[simp] theorem annualRateOf_large : annualRateOf "large" = 10 / 100 := rfl

@[simp] theorem annualRateOf_mid : annualRateOf "mid" = 12 / 100 := rfl

@[simp] theorem annualRateOf_small : annualRateOf "small" = 15 / 100 := rfl

/-- The rate table, with its fallback, always yields a positive annual rate. -/
theorem annualRateOf_pos (category : String) : 0 < annualRateOf category := by
  unfold annualRateOf returnRates
  split
  · norm_num
  · split
    · norm_num
    · split <;> norm_num

theorem monthlyRateOf_pos (category : String) : 0 < monthlyRateOf category := by
  have h := annualRateOf_pos category
  unfold monthlyRateOf
  positivity

/-- One element of the `yearlyBreakdown` array built by `calculateStepUpSIP`. -/
structure StepUpYearEntry where
  year : ℕ
  investment : ℚ
  value : ℚ
  returns : ℚ
  monthlyAmount : ℚ
  deriving DecidableEq

/-- The result object of `calculateStepUpSIP`. -/
structure StepUpResult where
  type : String
  category : String
  totalInvestment : ℚ
  futureValue : ℚ
  returns : ℚ
  inflationAdjustedValue : ℚ
  realReturns : ℚ
  effectiveRate : ℝ
  annualRate : ℚ
  yearlyBreakdown : List StepUpYearEntry
  initialAmount : ℚ
  stepUpPercent : ℚ
  years : ℕ
  months : ℕ

/-- One iteration of the month-by-month loop of `calculateStepUpSIP`
(loop variable `month = i + 1`).  State:
`(totalInvestment, futureValue, currentAmount)`. -/
def stepUpMonth (months : ℕ) (monthlyRate stepUpDecimal : ℚ)
    (st : ℚ × ℚ × ℚ) (i : ℕ) : ℚ × ℚ × ℚ :=
  let month := i + 1
  let monthsRemaining := months - month + 1
  let futureValue := st.2.1 + st.2.2 * (1 + monthlyRate) ^ monthsRemaining
  let totalInvestment := st.1 + st.2.2
  let currentAmount :=
    if month % 12 = 0 ∧ month < months then st.2.2 * (1 + stepUpDecimal) else st.2.2
  (totalInvestment, futureValue, currentAmount)

/-- The `for (let month = 1; month <= months; month++)` loop of
`calculateStepUpSIP`, starting from `(0, 0, initialAmount)`. -/
def stepUpMainLoop (initialAmount : ℚ) (months : ℕ)
    (monthlyRate stepUpDecimal : ℚ) : ℚ × ℚ × ℚ :=
  (List.range months).foldl (stepUpMonth months monthlyRate stepUpDecimal) (0, 0, initialAmount)

/-- Mutable state of the year-wise breakdown loop of `calculateStepUpSIP`. -/
structure StepUpBDState where
  cumulativeInvestment : ℚ
  cumulativeValue : ℚ
  yearlyAmount : ℚ
  entries : List StepUpYearEntry

/-- One iteration (`month = j + 1`) of the inner `for (let month = 1;
month <= 12; month++)` loop in the breakdown part of `calculateStepUpSIP`,
guarded by `totalMonthsFromStart <= months`.  State:
`(cumulativeInvestment, cumulativeValue)`. -/
def stepUpInnerMonth (months : ℕ) (monthlyRate yearlyAmount : ℚ) (year : ℕ)
    (p : ℚ × ℚ) (j : ℕ) : ℚ × ℚ :=
  let month := j + 1
  let totalMonthsFromStart := (year - 1) * 12 + month
  if totalMonthsFromStart ≤ months then
    let monthsRemaining := months - totalMonthsFromStart + 1
    (p.1 + yearlyAmount, p.2 + yearlyAmount * (1 + monthlyRate) ^ monthsRemaining)
  else p

/-- One iteration of the year-wise breakdown loop of `calculateStepUpSIP`
(loop variable `year = yi + 1`). -/
def stepUpYearStep (years months : ℕ) (monthlyRate stepUpDecimal : ℚ)
    (st : StepUpBDState) (yi : ℕ) : StepUpBDState :=
  let year := yi + 1
  let inner := (List.range 12).foldl
    (stepUpInnerMonth months monthlyRate st.yearlyAmount year)
    (st.cumulativeInvestment, st.cumulativeValue)
  let entry : StepUpYearEntry :=
    { year := year, investment := inner.1, value := inner.2,
      returns := inner.2 - inner.1, monthlyAmount := st.yearlyAmount }
  let yearlyAmount :=
    if year < years then st.yearlyAmount * (1 + stepUpDecimal) else st.yearlyAmount
  { cumulativeInvestment := inner.1, cumulativeValue := inner.2,
    yearlyAmount := yearlyAmount, entries := st.entries ++ [entry] }

/-- The `for (let year = 1; year <= years; year++)` breakdown loop of
`calculateStepUpSIP`. -/
def stepUpBreakdownLoop (initialAmount : ℚ) (years months : ℕ)
    (monthlyRate stepUpDecimal : ℚ) : StepUpBDState :=
  (List.range years).foldl (stepUpYearStep years months monthlyRate stepUpDecimal)
    { cumulativeInvestment := 0, cumulativeValue := 0,
      yearlyAmount := initialAmount, entries := [] }

/-- `calculateStepUpSIP(initialAmount, years, stepUpPercent, inflationRate)`. -/
noncomputable def calculateStepUpSIP (initialAmount : ℚ) (years : ℕ) (stepUpPercent : ℚ)
    (inflationRate : ℚ := 0) : StepUpResult :=
  let months := years * 12
  let annualRate : ℚ := 15 / 100
  let monthlyRate := annualRate / 12
  let stepUpDecimal := stepUpPercent / 100
  let main := stepUpMainLoop initialAmount months monthlyRate stepUpDecimal
  let totalInvestment := main.1
  let futureValue := main.2.1
  let returns := futureValue - totalInvestment
  let inflationAdjustedValue :=
    if 0 < inflationRate then futureValue / (1 + inflationRate / 100) ^ years else futureValue
  let realReturns :=
    if 0 < inflationRate then
      (futureValue / (1 + inflationRate / 100) ^ years) - totalInvestment
    else returns
  let effectiveRate :=
    calculateEffectiveRate (futureValue : ℝ) (totalInvestment : ℝ) (years : ℝ)
  let breakdown := stepUpBreakdownLoop initialAmount years months monthlyRate stepUpDecimal
  { type := "Step-up SIP"
    category := toString stepUpPercent ++ "% annual increase"
    totalInvestment := totalInvestment
    futureValue := futureValue
    returns := returns
    inflationAdjustedValue := inflationAdjustedValue
    realReturns := realReturns
    effectiveRate := effectiveRate
    annualRate := annualRate * 100
    yearlyBreakdown := breakdown.entries
    initialAmount := initialAmount
    stepUpPercent := stepUpPercent
    years := years
    months := months }

/-- One element of the `yearlyBreakdown` array built by `calculateFlexibleSIP`. -/
structure FlexYearEntry where
  year : ℕ
  investment : ℚ
  value : ℚ
  returns : ℚ
  yearlyInvestment : ℚ
  deriving DecidableEq

/-- The result object of `calculateFlexibleSIP`.  The fractional-year
inflation factor forces the inflation-adjusted fields into `ℝ`; the
average uses `jsDiv` because `months` can be zero. -/
structure FlexibleResult where
  type : String
  category : String
  totalInvestment : ℚ
  futureValue : ℚ
  returns : ℚ
  inflationAdjustedValue : ℝ
  realReturns : ℝ
  effectiveRate : ℝ
  annualRate : ℚ
  yearlyBreakdown : List FlexYearEntry
  monthlyAmounts : List JSEntry
  averageMonthlyAmount : Option ℚ
  years : ℚ
  months : ℕ

/-- One iteration of the `monthlyAmounts.forEach((amount, index) => ...)`
loop in `calculateFlexibleSIP`.  State: `(totalInvestment, futureValue)`. -/
def flexMonth (monthlyAmounts : List JSEntry) (monthlyRate : ℚ)
    (p : ℚ × ℚ) (index : ℕ) : ℚ × ℚ :=
  let months := monthlyAmounts.length
  let monthlyAmount := jsNum (monthlyAmounts.getD index JSEntry.nonNum)
  let monthsRemaining := months - index
  if 0 < monthlyAmount then
    (p.1 + monthlyAmount, p.2 + monthlyAmount * (1 + monthlyRate) ^ monthsRemaining)
  else p

/-- The month-by-month accumulation loop of `calculateFlexibleSIP`. -/
def flexMainLoop (monthlyAmounts : List JSEntry) (monthlyRate : ℚ) : ℚ × ℚ :=
  (List.range monthlyAmounts.length).foldl (flexMonth monthlyAmounts monthlyRate) (0, 0)

/-- Mutable state of the year-wise breakdown loop of `calculateFlexibleSIP`. -/
structure FlexBDState where
  cumulativeInvestment : ℚ
  cumulativeValue : ℚ
  entries : List FlexYearEntry

/-- One iteration of the inner `for (let month = startMonth;
month < endMonth; month++)` loop in the breakdown part of
`calculateFlexibleSIP`.  State:
`(cumulativeInvestment, cumulativeValue, yearlyInvestment)`. -/
def flexInnerMonth (monthlyAmounts : List JSEntry) (monthlyRate : ℚ)
    (p : ℚ × ℚ × ℚ) (month : ℕ) : ℚ × ℚ × ℚ :=
  let months := monthlyAmounts.length
  let monthlyAmount := jsNum (monthlyAmounts.getD month JSEntry.nonNum)
  let monthsRemaining := months - month
  if 0 < monthlyAmount then
    (p.1 + monthlyAmount,
     p.2.1 + monthlyAmount * (1 + monthlyRate) ^ monthsRemaining,
     p.2.2 + monthlyAmount)
  else p

/-- One iteration of the year-wise breakdown loop of `calculateFlexibleSIP`
(loop variable `year = yi + 1`); the inner loop walks the array indices
`startMonth <= month < endMonth`. -/
def flexYearStep (monthlyAmounts : List JSEntry) (monthlyRate : ℚ)
    (st : FlexBDState) (yi : ℕ) : FlexBDState :=
  let year := yi + 1
  let startMonth := (year - 1) * 12
  let endMonth := min (year * 12) monthlyAmounts.length
  let inner := (List.range' startMonth (endMonth - startMonth)).foldl
    (flexInnerMonth monthlyAmounts monthlyRate)
    (st.cumulativeInvestment, st.cumulativeValue, 0)
  let entry : FlexYearEntry :=
    { year := year, investment := inner.1, value := inner.2.1,
      returns := inner.2.1 - inner.1, yearlyInvestment := inner.2.2 }
  { cumulativeInvestment := inner.1, cumulativeValue := inner.2.1,
    entries := st.entries ++ [entry] }

/-- The `for (let year = 1; year <= Math.ceil(years); year++)` breakdown
loop of `calculateFlexibleSIP`; `Math.ceil(months / 12) = (months + 11) / 12`
in natural-number division. -/
def flexBreakdownLoop (monthlyAmounts : List JSEntry) (monthlyRate : ℚ) : FlexBDState :=
  let yearsCeil := (monthlyAmounts.length + 11) / 12
  (List.range yearsCeil).foldl (flexYearStep monthlyAmounts monthlyRate)
    { cumulativeInvestment := 0, cumulativeValue := 0, entries := [] }

/-- `calculateFlexibleSIP(monthlyAmounts, inflationRate)`. -/
noncomputable def calculateFlexibleSIP (monthlyAmounts : List JSEntry)
    (inflationRate : ℚ := 0) : FlexibleResult :=
  let months := monthlyAmounts.length
  let years : ℚ := (months : ℚ) / 12
  let annualRate : ℚ := 12 / 100
  let monthlyRate := annualRate / 12
  let main := flexMainLoop monthlyAmounts monthlyRate
  let totalInvestment := main.1
  let futureValue := main.2
  let returns := futureValue - totalInvestment
  let inflationAdjustedValue : ℝ :=
    if 0 < inflationRate then
      (futureValue : ℝ) / (1 + (inflationRate : ℝ) / 100) ^ (years : ℝ)
    else (futureValue : ℝ)
  let realReturns : ℝ :=
    if 0 < inflationRate then inflationAdjustedValue - (totalInvestment : ℝ)
    else (returns : ℝ)
  let effectiveRate :=
    calculateEffectiveRate (futureValue : ℝ) (totalInvestment : ℝ) (years : ℝ)
  let breakdown := flexBreakdownLoop monthlyAmounts monthlyRate
  let averageMonthlyAmount := jsDiv totalInvestment (months : ℚ)
  { type := "Flexible SIP"
    category := "Custom amounts"
    totalInvestment := totalInvestment
    futureValue := futureValue
    returns := returns
    inflationAdjustedValue := inflationAdjustedValue
    realReturns := realReturns
    effectiveRate := effectiveRate
    annualRate := annualRate * 100
    yearlyBreakdown := breakdown.entries
    monthlyAmounts := monthlyAmounts
    averageMonthlyAmount := averageMonthlyAmount
    years := years
    months := months }

/-- The result object of `calculateGoalBasedSIP`.  `requiredMonthlyAmount`
and the fields computed from it use `Option`: `none` stands for the
non-finite value JS produces when the annuity factor is zero. -/
structure GoalResult where
  goalAmount : ℚ
  requiredMonthlyAmount : Option ℚ
  totalInvestment : Option ℚ
  returns : Option ℚ
  effectiveRate : ℝ
  annualRate : ℚ
  years : ℕ
  months : ℕ
  category : String

/-- `calculateGoalBasedSIP(goalAmount, years, category)`.  The division
`goalAmount / factor` is unguarded in the source; `factor = 0` exactly when
`months = 0` (the monthly rate is always positive), and there JS produces
`Infinity`/`NaN`, modelled as `none`.  `totalInvestment` is then `NaN`, and
inside `calculateEffectiveRate` the `years <= 0` guard (true, since
`months = 0` forces `years = 0`) yields `0`. -/
noncomputable def calculateGoalBasedSIP (goalAmount : ℚ) (years : ℕ)
    (category : String) : GoalResult :=
  let months := years * 12
  let annualRate := annualRateOf category
  let monthlyRate := annualRate / 12
  let factor := (((1 + monthlyRate) ^ months - 1) / monthlyRate) * (1 + monthlyRate)
  let requiredMonthlyAmount := jsDiv goalAmount factor
  let totalInvestment := requiredMonthlyAmount.map (fun a => a * (months : ℚ))
  let returns := totalInvestment.map (fun t => goalAmount - t)
  let effectiveRate : ℝ :=
    match totalInvestment with
    | some t => calculateEffectiveRate (goalAmount : ℝ) (t : ℝ) (years : ℝ)
    | none => 0
  { goalAmount := goalAmount
    requiredMonthlyAmount := requiredMonthlyAmount
    totalInvestment := totalInvestment
    returns := returns
    effectiveRate := effectiveRate
    annualRate := annualRate * 100
    years := years
    months := months
    category := category }

/-- The comparison array built by `compareAllSIPTypes` is heterogeneous in
JS; each element is one of the three calculators' result objects. -/
inductive ComparisonEntry where
  | regular (r : RegularResult)
  | stepUp (r : StepUpResult)
  | flexible (r : FlexibleResult)

/-- `compareAllSIPTypes({monthlyAmount, years, stepUpPercent = 10,
inflationRate = 0})`: pushes a Regular result for each of the three
categories, then the Step-up result, then the Flexible result on
`Array(years * 12).fill(monthlyAmount)`. -/
noncomputable def compareAllSIPTypes (monthlyAmount : ℚ) (years : ℕ)
    (stepUpPercent : ℚ := 10) (inflationRate : ℚ := 0) : List ComparisonEntry :=
  (["large", "mid", "small"].map (fun category =>
      ComparisonEntry.regular (calculateRegularSIP monthlyAmount years category inflationRate)))
    ++ [ComparisonEntry.stepUp (calculateStepUpSIP monthlyAmount years stepUpPercent inflationRate),
        ComparisonEntry.flexible
          (calculateFlexibleSIP (List.replicate (years * 12) (JSEntry.num monthlyAmount))
            inflationRate)]

/-- The amount the flexible calculator actually counts for array index `i`:
the coerced entry when it is strictly positive, `0` otherwise. -/
def flexContribution (monthlyAmounts : List JSEntry) (i : ℕ) : ℚ :=
  if 0 < jsNum (monthlyAmounts.getD i JSEntry.nonNum) then
    jsNum (monthlyAmounts.getD i JSEntry.nonNum)
  else 0

/-- The growth the flexible calculator actually counts for array index `i`. -/
def flexGrowthTerm (monthlyAmounts : List JSEntry) (monthlyRate : ℚ) (i : ℕ) : ℚ :=
  if 0 < jsNum (monthlyAmounts.getD i JSEntry.nonNum) then
    jsNum (monthlyAmounts.getD i JSEntry.nonNum)
      * (1 + monthlyRate) ^ (monthlyAmounts.length - i)
  else 0

/-- Replace every entry that is zero, negative, non-numeric or blank by a
literal `0` entry (the coercion the specification describes). -/
def zeroNonPositive (e : JSEntry) : JSEntry :=
  if 0 < jsNum e then e else JSEntry.num 0

/-- The first `y` iterations of the breakdown loop of `calculateStepUpSIP`. -/
def stepUpBDRun (initialAmount : ℚ) (years months : ℕ)
    (monthlyRate stepUpDecimal : ℚ) (y : ℕ) : StepUpBDState :=
  (List.range y).foldl (stepUpYearStep years months monthlyRate stepUpDecimal)
    { cumulativeInvestment := 0, cumulativeValue := 0,
      yearlyAmount := initialAmount, entries := [] }

/-- The first `y` iterations of the breakdown loop of `calculateFlexibleSIP`. -/
def flexBDRun (monthlyAmounts : List JSEntry) (monthlyRate : ℚ) (y : ℕ) : FlexBDState :=
  (List.range y).foldl (flexYearStep monthlyAmounts monthlyRate)
    { cumulativeInvestment := 0, cumulativeValue := 0, entries := [] }

/-! ### Helper lemmas -/

/-- Bernoulli: the annuity quotient `((1+r)^n - 1)/r` dominates `n`. -/
theorem annuity_factor_ge (r : ℚ) (hr : 0 < r) (n : ℕ) :
    (n : ℚ) ≤ ((1 + r) ^ n - 1) / r := by
  rw [le_div_iff₀ hr]
  have h := one_add_mul_le_pow (by linarith : (-2 : ℚ) ≤ r) n
  linarith

/-! ### Claim C6 — effective-rate estimator guard -/

/-- C6: `calculateEffectiveRate` returns
`((totalValue/totalInvestment)^(1/years) - 1) * 100` whenever
`totalInvestment > 0` and `years > 0`, and returns exactly `0` whenever
`totalInvestment <= 0` or `years <= 0`, by an explicit guard; consequently
the stored `effectiveRate` of a zero-duration plan is `0`. -/
theorem effectiveRate_guard_spec (totalValue totalInvestment years : ℝ) :
    (0 < totalInvestment → 0 < years →
      calculateEffectiveRate totalValue totalInvestment years
        = ((totalValue / totalInvestment) ^ (1 / years) - 1) * 100)
    ∧ (totalInvestment ≤ 0 ∨ years ≤ 0 →
      calculateEffectiveRate totalValue totalInvestment years = 0)
    ∧ (∀ (A : ℚ) (category : String) (inflationRate : ℚ),
      (calculateRegularSIP A 0 category inflationRate).effectiveRate = 0) := by
  refine ⟨fun hi hy => ?_, fun h => ?_, fun A category inflationRate => ?_⟩
  · unfold calculateEffectiveRate
    rw [if_neg]
    push_neg
    exact ⟨hi, hy⟩
  · unfold calculateEffectiveRate
    rw [if_pos h]
  · simp [calculateRegularSIP, calculateEffectiveRate]

/-- Witness for C6 at concrete inputs. -/
theorem effectiveRate_guard_spec_witness :
    calculateEffectiveRate 2 1 1 = 100 ∧ calculateEffectiveRate 1 0 1 = 0 := by
  constructor
  · rw [(effectiveRate_guard_spec 2 1 1).1 (by norm_num) (by norm_num)]
    norm_num [Real.rpow_one]
  · exact (effectiveRate_guard_spec 1 0 1).2.1 (Or.inl le_rfl)

/-! ### Claim C10 — empty freeform plan -/

/-- C10: on an empty contribution list the flexible calculator yields zero
totals, a zero effective rate and an empty timeline, but the reported
average per-period contribution is the unguarded `0 / 0`, which is
non-finite (`NaN` in JS, `none` here) rather than `0`. -/
theorem flexible_empty_unguarded_average :
    (calculateFlexibleSIP [] 0).totalInvestment = 0
    ∧ (calculateFlexibleSIP [] 0).futureValue = 0
    ∧ (calculateFlexibleSIP [] 0).effectiveRate = 0
    ∧ (calculateFlexibleSIP [] 0).yearlyBreakdown = []
    ∧ (calculateFlexibleSIP [] 0).averageMonthlyAmount = none := by
  refine ⟨?_, ?_, ?_, ?_, ?_⟩ <;>
    simp [calculateFlexibleSIP, flexMainLoop, flexBreakdownLoop,
      calculateEffectiveRate, jsDiv]

/-! ### Claim C3 — comparator arity and order -/

/-- C3 (counterexample): the comparator returns 5 results, not 6. -/
theorem compareAll_not_six_results :
    (compareAllSIPTypes 1000 1 10 0).length = 5
    ∧ (compareAllSIPTypes 1000 1 10 0).length ≠ 6 := by
  refine ⟨rfl, ?_⟩
  simp [compareAllSIPTypes]

/-- C3 (amended): the comparator returns exactly 5 results, in the fixed
order LargeCap, MidCap, SmallCap, Escalating, Freeform (the freeform input
being the shared amount replicated across every period). -/
theorem compareAll_five_results_ordered (monthlyAmount : ℚ) (years : ℕ)
    (stepUpPercent inflationRate : ℚ) :
    compareAllSIPTypes monthlyAmount years stepUpPercent inflationRate
      = [ComparisonEntry.regular (calculateRegularSIP monthlyAmount years "large" inflationRate),
         ComparisonEntry.regular (calculateRegularSIP monthlyAmount years "mid" inflationRate),
         ComparisonEntry.regular (calculateRegularSIP monthlyAmount years "small" inflationRate),
         ComparisonEntry.stepUp (calculateStepUpSIP monthlyAmount years stepUpPercent inflationRate),
         ComparisonEntry.flexible (calculateFlexibleSIP
           (List.replicate (years * 12) (JSEntry.num monthlyAmount)) inflationRate)]
      ∧ (compareAllSIPTypes monthlyAmount years stepUpPercent inflationRate).length = 5 :=
  ⟨rfl, rfl⟩

/-! ### Claim C8 — Goal-Solver degenerate input -/

/-- C8: evaluated at zero periods, the Goal-Solver's annuity factor is zero
and the unguarded division `goalAmount / factor` produces a non-finite
value (modelled `none`), which propagates into `totalInvestment` and
`returns` — there is no explicit guard and no defined sentinel. -/
theorem goal_zero_periods_not_guarded :
    (calculateGoalBasedSIP 500000 0 "mid").months = 0
    ∧ (calculateGoalBasedSIP 500000 0 "mid").requiredMonthlyAmount = none
    ∧ (calculateGoalBasedSIP 500000 0 "mid").totalInvestment = none
    ∧ (calculateGoalBasedSIP 500000 0 "mid").returns = none := by
  refine ⟨rfl, ?_, ?_, ?_⟩ <;> simp [calculateGoalBasedSIP, jsDiv]

/-! ### Claim C2 — Goal-Solver round trip -/

/-- C2: running the Fixed-Contribution calculator with the per-period
amount produced by the Goal-Solver for `(target, years, category)` yields a
`futureValue` exactly equal to `target` (both sides use the same annuity
factor and the same rate lookup). -/
theorem goal_roundtrip_exact (target : ℚ) (years : ℕ) (category : String)
    (htarget : 0 < target) (hyears : 0 < years) :
    ∃ A : ℚ,
      (calculateGoalBasedSIP target years category).requiredMonthlyAmount = some A
      ∧ (calculateRegularSIP A years category 0).futureValue = target := by
  have hr : 0 < annualRateOf category / 12 := by
    have := annualRateOf_pos category; positivity
  have hx : (1 : ℚ) <
      (1 + annualRateOf category / 12) ^ (years * 12) :=
    one_lt_pow₀ (by linarith) (by omega)
  have hB : 0 < ((1 + annualRateOf category / 12) ^ (years * 12) - 1)
      / (annualRateOf category / 12) := div_pos (by linarith) hr
  have hfac : 0 < (((1 + annualRateOf category / 12) ^ (years * 12) - 1)
      / (annualRateOf category / 12)) * (1 + annualRateOf category / 12) :=
    mul_pos hB (by linarith)
  refine ⟨target / ((((1 + annualRateOf category / 12) ^ (years * 12) - 1)
      / (annualRateOf category / 12)) * (1 + annualRateOf category / 12)), ?_, ?_⟩
  · simp only [calculateGoalBasedSIP, jsDiv]
    rw [if_neg (ne_of_gt hfac)]
  · simp only [calculateRegularSIP]
    rw [div_mul_eq_mul_div, div_mul_eq_mul_div, div_eq_iff (ne_of_gt hfac)]
    ring

/-- Witness for C2 at a concrete input. -/
theorem goal_roundtrip_exact_witness :
    ∃ A : ℚ,
      (calculateGoalBasedSIP 1000000 10 "large").requiredMonthlyAmount = some A
      ∧ (calculateRegularSIP A 10 "large" 0).futureValue = 1000000 :=
  goal_roundtrip_exact 1000000 10 "large" (by norm_num) (by norm_num)

/-! ### Claim C1 — Fixed-Contribution closed form and concrete scenario -/

/-- C1 (counterexample): the MidCap concrete scenario's `futureValue` is
not approximately 2,319,007 (±1): it exceeds 2,323,390. -/
theorem regular_concrete_not_2319007 :
    2323390 < (calculateRegularSIP 10000 10 "mid" 0).futureValue
    ∧ ¬ |(calculateRegularSIP 10000 10 "mid" 0).futureValue - 2319007| ≤ 1 := by
  have h : 2323390 < (calculateRegularSIP 10000 10 "mid" 0).futureValue := by
    simp only [calculateRegularSIP, annualRateOf_mid]
    norm_num
  refine ⟨h, fun habs => ?_⟩
  rw [abs_le] at habs
  linarith [habs.2]

/-- C1 (amended): for every Fixed-Contribution calculation the result
satisfies `futureValue = A * ((1+r)^n - 1)/r * (1+r)` and
`totalInvestment = A * n` with `n = years*12`, `r = annualRate/12`; in the
MidCap scenario (A = 10000, years = 10), `totalInvestment = 1,200,000` and
`futureValue ≈ 2,323,391` (between 2,323,390 and 2,323,391). -/
theorem regular_closed_form_and_concrete :
    (∀ (A : ℚ) (years : ℕ) (category : String), 0 < A → 0 < years →
      (calculateRegularSIP A years category 0).futureValue
          = A * (((1 + monthlyRateOf category) ^ (years * 12) - 1) / monthlyRateOf category)
              * (1 + monthlyRateOf category)
        ∧ (calculateRegularSIP A years category 0).totalInvestment
          = A * ((years * 12 : ℕ) : ℚ))
    ∧ (calculateRegularSIP 10000 10 "mid" 0).totalInvestment = 1200000
    ∧ 2323390 < (calculateRegularSIP 10000 10 "mid" 0).futureValue
    ∧ (calculateRegularSIP 10000 10 "mid" 0).futureValue < 2323391 := by
  refine ⟨fun A years category hA hy => ⟨?_, ?_⟩, ?_, ?_, ?_⟩
  · simp [calculateRegularSIP, monthlyRateOf]
  · simp [calculateRegularSIP]
  · simp only [calculateRegularSIP, annualRateOf_mid]
    norm_num
  · simp only [calculateRegularSIP, annualRateOf_mid]
    norm_num
  · simp only [calculateRegularSIP, annualRateOf_mid]
    norm_num

/-- Witness for C1's amended universal part at the MidCap scenario. -/
theorem regular_closed_form_and_concrete_witness :
    (calculateRegularSIP 10000 10 "mid" 0).futureValue
        = 10000 * (((1 + monthlyRateOf "mid") ^ (10 * 12) - 1) / monthlyRateOf "mid")
            * (1 + monthlyRateOf "mid")
    ∧ (calculateRegularSIP 10000 10 "mid" 0).totalInvestment
        = 10000 * ((10 * 12 : ℕ) : ℚ) :=
  regular_closed_form_and_concrete.1 10000 10 "mid" (by norm_num) (by norm_num)

/-! ### Claim C9 — growth positivity -/

/-- C9: for a positive amount and at least one year the Fixed-Contribution
result has strictly positive growth; and for any non-negative amount
`totalInvestment` is non-negative and `futureValue` dominates it. -/
theorem regular_growth_positive (A : ℚ) (years : ℕ) (category : String) :
    (0 < A → 1 ≤ years →
      (calculateRegularSIP A years category 0).totalInvestment
        < (calculateRegularSIP A years category 0).futureValue)
    ∧ (0 ≤ A →
      0 ≤ (calculateRegularSIP A years category 0).totalInvestment
        ∧ (calculateRegularSIP A years category 0).totalInvestment
            ≤ (calculateRegularSIP A years category 0).futureValue) := by
  have hr : 0 < annualRateOf category / 12 := by
    have := annualRateOf_pos category; positivity
  have hfac := annuity_factor_ge (annualRateOf category / 12) hr (years * 12)
  constructor
  · intro hA hy
    simp only [calculateRegularSIP]
    have hn : (1 : ℚ) ≤ ((years * 12 : ℕ) : ℚ) := by
      have h12 : (1 : ℕ) ≤ years * 12 := by omega
      exact_mod_cast h12
    have hB : (0 : ℚ) <
        ((1 + annualRateOf category / 12) ^ (years * 12) - 1) / (annualRateOf category / 12) :=
      lt_of_lt_of_le (by linarith) hfac
    calc A * ((years * 12 : ℕ) : ℚ)
        ≤ A * (((1 + annualRateOf category / 12) ^ (years * 12) - 1)
            / (annualRateOf category / 12)) := mul_le_mul_of_nonneg_left hfac hA.le
      _ < A * (((1 + annualRateOf category / 12) ^ (years * 12) - 1)
            / (annualRateOf category / 12)) * (1 + annualRateOf category / 12) :=
          lt_mul_of_one_lt_right (mul_pos hA hB) (by linarith)
  · intro hA
    simp only [calculateRegularSIP]
    have hn : (0 : ℚ) ≤ ((years * 12 : ℕ) : ℚ) := by positivity
    have hB : (0 : ℚ) ≤
        ((1 + annualRateOf category / 12) ^ (years * 12) - 1) / (annualRateOf category / 12) :=
      le_trans hn hfac
    refine ⟨mul_nonneg hA hn, ?_⟩
    calc A * ((years * 12 : ℕ) : ℚ)
        ≤ A * (((1 + annualRateOf category / 12) ^ (years * 12) - 1)
            / (annualRateOf category / 12)) := mul_le_mul_of_nonneg_left hfac hA
      _ ≤ A * (((1 + annualRateOf category / 12) ^ (years * 12) - 1)
            / (annualRateOf category / 12)) * (1 + annualRateOf category / 12) :=
          le_mul_of_one_le_right (mul_nonneg hA hB) (by linarith)

/-- Witness for C9 at a concrete input. -/
theorem regular_growth_positive_witness :
    (calculateRegularSIP 1 1 "large" 0).totalInvestment
        < (calculateRegularSIP 1 1 "large" 0).futureValue
    ∧ 0 ≤ (calculateRegularSIP 1 1 "large" 0).totalInvestment := by
  have h := regular_growth_positive 1 1 "large"
  exact ⟨h.1 (by norm_num) (by norm_num), (h.2 (by norm_num)).1⟩

/-! ### Step-up main-loop invariant and geometric sums -/

/-- Closed form for the first `t ≤ n` iterations of the step-up month
loop: totals are escalated geometric sums and the current amount has been
escalated once per completed 12-month block (except after the final
month). -/
theorem stepUpMonth_foldl (A r s : ℚ) (n : ℕ) :
    ∀ t, t ≤ n →
      (List.range t).foldl (stepUpMonth n r s) (0, 0, A)
        = (A * ∑ m in Finset.range t, (1 + s) ^ (m / 12),
           A * ∑ m in Finset.range t, (1 + s) ^ (m / 12) * (1 + r) ^ (n - m),
           A * (1 + s) ^ (min t (n - 1) / 12)) := by
  intro t
  induction t with
  | zero => intro _; simp
  | succ t ih =>
    intro ht
    rw [List.range_succ, List.foldl_append, ih (by omega), List.foldl_cons, List.foldl_nil]
    have hmin : min t (n - 1) = t := by omega
    simp only [stepUpMonth, Prod.mk.injEq, hmin]
    refine ⟨?_, ?_, ?_⟩
    · rw [Finset.sum_range_succ]
      ring
    · have hexp : n - (t + 1) + 1 = n - t := by omega
      rw [hexp, Finset.sum_range_succ]
      ring
    · split_ifs with hcond
      · have h1 : min (t + 1) (n - 1) / 12 = t / 12 + 1 := by omega
        rw [h1, pow_succ]
        ring
      · have h1 : min (t + 1) (n - 1) / 12 = t / 12 := by omega
        rw [h1]

/-- Summing `c^(m/12)` over `12*Y` months collapses to `12` copies of each
of the `Y` yearly powers. -/
theorem sum_pow_div_twelve (c : ℚ) (Y : ℕ) :
    ∑ m in Finset.range (12 * Y), c ^ (m / 12) = 12 * ∑ j in Finset.range Y, c ^ j := by
  induction Y with
  | zero => simp
  | succ Y ih =>
    have hsplit : ∑ m in Finset.range (12 * Y), c ^ (m / 12)
          + ∑ m in Finset.Ico (12 * Y) (12 * (Y + 1)), c ^ (m / 12)
        = ∑ m in Finset.range (12 * (Y + 1)), c ^ (m / 12) := by
      rw [Finset.range_eq_Ico]
      exact Finset.sum_Ico_consecutive _ (Nat.zero_le _) (by omega)
    have hconst : ∑ m in Finset.Ico (12 * Y) (12 * (Y + 1)), c ^ (m / 12) = 12 * c ^ Y := by
      have hcongr : ∀ m ∈ Finset.Ico (12 * Y) (12 * (Y + 1)), c ^ (m / 12) = c ^ Y := by
        intro m hm
        rw [Finset.mem_Ico] at hm
        have hdiv : m / 12 = Y := by omega
        rw [hdiv]
      rw [Finset.sum_congr rfl hcongr, Finset.sum_const, Nat.card_Ico]
      have h12 : 12 * (Y + 1) - 12 * Y = 12 := by omega
      rw [h12, nsmul_eq_mul]
      norm_num
    rw [← hsplit, ih, hconst, Finset.sum_range_succ]
    ring

/-- The month-indexed compounding sum of a constant contribution equals the
closed-form annuity-due factor. -/
theorem sum_pow_rev (r : ℚ) (hr : r ≠ 0) (n : ℕ) :
    ∑ m in Finset.range n, (1 + r) ^ (n - m)
      = (((1 + r) ^ n - 1) / r) * (1 + r) := by
  have hx1 : (1 + r) ≠ 1 := fun h => hr (by linarith)
  have h1 : ∑ m in Finset.range n, (1 + r) ^ (n - m)
      = ∑ m in Finset.range n, (1 + r) ^ ((n - 1 - m) + 1) :=
    Finset.sum_congr rfl (fun m hm => by
      rw [Finset.mem_range] at hm
      congr 1
      omega)
  have h4 : ∑ m in Finset.range n, (1 + r) ^ ((n - 1 - m) + 1)
      = ∑ j in Finset.range n, (1 + r) ^ (j + 1) :=
    Finset.sum_range_reflect (fun j => (1 + r) ^ (j + 1)) n
  rw [h1, h4]
  have h2 : ∑ j in Finset.range n, (1 + r) ^ (j + 1)
      = (∑ j in Finset.range n, (1 + r) ^ j) * (1 + r) := by
    rw [Finset.sum_mul]
    exact Finset.sum_congr rfl (fun j _ => by rw [pow_succ])
  rw [h2, geom_sum_eq hx1]
  have h3 : (1 + r) - 1 = r := by ring
  rw [h3]

/-! ### Claim C4 — zero escalation reduces to the fixed closed form -/

/-- C4: the Escalating calculator with `escalationRate = 0` produces the
same `futureValue` as the Fixed calculator at the same amount and duration
with the Escalating calculator's fixed annual rate 0.15 (category
SmallCap): the period-by-period sum of `A*(1+r)^(n-i+1)` equals
`A * ((1+r)^n - 1)/r * (1+r)`. -/
theorem stepUp_zero_escalation_eq_regular (A : ℚ) (years : ℕ)
    (hA : 0 < A) (hy : 0 < years) :
    (calculateStepUpSIP A years 0 0).futureValue
      = (calculateRegularSIP A years "small" 0).futureValue := by
  have hr : ((15 : ℚ) / 100) / 12 ≠ 0 := by norm_num
  simp only [calculateStepUpSIP, calculateRegularSIP, annualRateOf_small, stepUpMainLoop]
  rw [stepUpMonth_foldl A (15 / 100 / 12) (0 / 100) (years * 12) (years * 12) le_rfl]
  simp only [zero_div, add_zero, one_pow, one_mul]
  rw [sum_pow_rev (15 / 100 / 12) hr (years * 12)]
  ring

/-- Witness for C4 at a concrete input. -/
theorem stepUp_zero_escalation_eq_regular_witness :
    (calculateStepUpSIP 100 1 0 0).futureValue
      = (calculateRegularSIP 100 1 "small" 0).futureValue :=
  stepUp_zero_escalation_eq_regular 100 1 (by norm_num) (by norm_num)

/-! ### Flexible main-loop invariant -/

/-- The first `t` iterations of the flexible month loop accumulate exactly
the positive-entry sums. -/
theorem flexMonth_foldl (cs : List JSEntry) (r : ℚ) (p0 : ℚ × ℚ) :
    ∀ t, (List.range t).foldl (flexMonth cs r) p0
      = (p0.1 + ∑ i in Finset.range t, flexContribution cs i,
         p0.2 + ∑ i in Finset.range t, flexGrowthTerm cs r i) := by
  intro t
  induction t with
  | zero => simp
  | succ t ih =>
    rw [List.range_succ, List.foldl_append, ih, List.foldl_cons, List.foldl_nil]
    have hc : flexContribution cs t
        = if 0 < jsNum (cs.getD t JSEntry.nonNum) then jsNum (cs.getD t JSEntry.nonNum)
          else 0 := rfl
    have hg : flexGrowthTerm cs r t
        = if 0 < jsNum (cs.getD t JSEntry.nonNum) then
            jsNum (cs.getD t JSEntry.nonNum) * (1 + r) ^ (cs.length - t)
          else 0 := rfl
    by_cases h : 0 < jsNum (cs.getD t JSEntry.nonNum)
    · simp only [flexMonth, if_pos h, Prod.mk.injEq]
      refine ⟨?_, ?_⟩
      · rw [Finset.sum_range_succ, hc, if_pos h]
        ring
      · rw [Finset.sum_range_succ, hg, if_pos h]
        ring
    · simp only [flexMonth, if_neg h, Prod.mk.injEq]
      refine ⟨?_, ?_⟩
      · rw [Finset.sum_range_succ, hc, if_neg h]
        ring
      · rw [Finset.sum_range_succ, hg, if_neg h]
        ring

/-- The flexible main loop computes the positive-entry sums. -/
theorem flexMainLoop_eq (cs : List JSEntry) (r : ℚ) :
    flexMainLoop cs r
      = (∑ i in Finset.range cs.length, flexContribution cs i,
         ∑ i in Finset.range cs.length, flexGrowthTerm cs r i) := by
  rw [flexMainLoop, flexMonth_foldl]
  simp

/-- `flexContribution` is invariant under the zero-coercion map. -/
theorem flexContribution_map (cs : List JSEntry) (i : ℕ) :
    flexContribution (cs.map zeroNonPositive) i = flexContribution cs i := by
  unfold flexContribution
  rw [List.getD_eq_getElem?_getD, List.getD_eq_getElem?_getD, List.getElem?_map]
  cases hcs : cs[i]? with
  | none => simp [jsNum]
  | some e =>
    have hred : (Option.map zeroNonPositive (some e)).getD JSEntry.nonNum
        = zeroNonPositive e := rfl
    have hz : jsNum (JSEntry.num 0) = 0 := rfl
    rw [hred, Option.getD_some]
    by_cases h : 0 < jsNum e
    · have he : zeroNonPositive e = e := by unfold zeroNonPositive; rw [if_pos h]
      rw [he]
    · have he : zeroNonPositive e = JSEntry.num 0 := by unfold zeroNonPositive; rw [if_neg h]
      rw [he, hz, if_neg (lt_irrefl (0 : ℚ)), if_neg h]

/-- `flexGrowthTerm` is invariant under the zero-coercion map. -/
theorem flexGrowthTerm_map (cs : List JSEntry) (r : ℚ) (i : ℕ) :
    flexGrowthTerm (cs.map zeroNonPositive) r i = flexGrowthTerm cs r i := by
  unfold flexGrowthTerm
  rw [List.length_map]
  rw [List.getD_eq_getElem?_getD, List.getD_eq_getElem?_getD, List.getElem?_map]
  cases hcs : cs[i]? with
  | none => simp [jsNum]
  | some e =>
    have hred : (Option.map zeroNonPositive (some e)).getD JSEntry.nonNum
        = zeroNonPositive e := rfl
    have hz : jsNum (JSEntry.num 0) = 0 := rfl
    rw [hred, Option.getD_some]
    by_cases h : 0 < jsNum e
    · have he : zeroNonPositive e = e := by unfold zeroNonPositive; rw [if_pos h]
      rw [he]
    · have he : zeroNonPositive e = JSEntry.num 0 := by unfold zeroNonPositive; rw [if_neg h]
      rw [he, hz, if_neg (lt_irrefl (0 : ℚ)), if_neg h]

/-- Every entry of an all-zero replicated list contributes nothing. -/
theorem flexContribution_replicate_zero (k i : ℕ) :
    flexContribution (List.replicate k (JSEntry.num 0)) i = 0 := by
  unfold flexContribution
  rw [List.getD_eq_getElem?_getD, List.getElem?_replicate]
  have hz : jsNum (JSEntry.num 0) = 0 := rfl
  have hnn : jsNum JSEntry.nonNum = 0 := rfl
  by_cases hik : i < k
  · rw [if_pos hik, Option.getD_some, hz, if_neg (lt_irrefl (0 : ℚ))]
  · rw [if_neg hik, Option.getD_none, hnn, if_neg (lt_irrefl (0 : ℚ))]

/-- Every entry of an all-zero replicated list grows nothing. -/
theorem flexGrowthTerm_replicate_zero (r : ℚ) (k i : ℕ) :
    flexGrowthTerm (List.replicate k (JSEntry.num 0)) r i = 0 := by
  unfold flexGrowthTerm
  rw [List.getD_eq_getElem?_getD, List.getElem?_replicate]
  have hz : jsNum (JSEntry.num 0) = 0 := rfl
  have hnn : jsNum JSEntry.nonNum = 0 := rfl
  by_cases hik : i < k
  · rw [if_pos hik, Option.getD_some, hz, if_neg (lt_irrefl (0 : ℚ))]
  · rw [if_neg hik, Option.getD_none, hnn, if_neg (lt_irrefl (0 : ℚ))]

/-! ### Claim C7 — non-positive freeform entries are excluded -/

/-- C7: replacing every zero, negative, non-numeric or blank entry of a
freeform plan by a literal `0` changes neither `totalInvestment` nor
`futureValue` (only entries strictly greater than `0` contribute), and an
all-zero plan yields zero totals and a zero effective rate. -/
theorem flexible_positive_entries_only (cs : List JSEntry) (inflationRate : ℚ) :
    ((calculateFlexibleSIP cs inflationRate).totalInvestment
        = (calculateFlexibleSIP (cs.map zeroNonPositive) inflationRate).totalInvestment
      ∧ (calculateFlexibleSIP cs inflationRate).futureValue
        = (calculateFlexibleSIP (cs.map zeroNonPositive) inflationRate).futureValue)
    ∧ (∀ k : ℕ,
        (calculateFlexibleSIP (List.replicate k (JSEntry.num 0)) inflationRate).totalInvestment = 0
        ∧ (calculateFlexibleSIP (List.replicate k (JSEntry.num 0)) inflationRate).futureValue = 0
        ∧ (calculateFlexibleSIP (List.replicate k (JSEntry.num 0)) inflationRate).effectiveRate
            = 0) := by
  constructor
  · constructor
    · simp only [calculateFlexibleSIP, flexMainLoop_eq, List.length_map]
      exact (Finset.sum_congr rfl fun i _ => (flexContribution_map cs i).symm)
    · simp only [calculateFlexibleSIP, flexMainLoop_eq, List.length_map]
      exact (Finset.sum_congr rfl fun i _ => (flexGrowthTerm_map cs (12 / 100 / 12) i).symm)
  · intro k
    have hti : ∑ i in Finset.range (List.replicate k (JSEntry.num 0)).length,
        flexContribution (List.replicate k (JSEntry.num 0)) i = 0 :=
      Finset.sum_eq_zero fun i _ => flexContribution_replicate_zero k i
    have hfv : ∑ i in Finset.range (List.replicate k (JSEntry.num 0)).length,
        flexGrowthTerm (List.replicate k (JSEntry.num 0)) (12 / 100 / 12) i = 0 :=
      Finset.sum_eq_zero fun i _ => flexGrowthTerm_replicate_zero (12 / 100 / 12) k i
    refine ⟨?_, ?_, ?_⟩
    · simp only [calculateFlexibleSIP, flexMainLoop_eq]
      exact hti
    · simp only [calculateFlexibleSIP, flexMainLoop_eq]
      exact hfv
    · simp only [calculateFlexibleSIP, flexMainLoop_eq, hti, hfv]
      unfold calculateEffectiveRate
      rw [if_pos (Or.inl (by norm_num))]

/-! ### Step-up breakdown invariants -/

/-- Inside a year that fits in the plan, every one of the first `t ≤ 12`
inner iterations passes the `totalMonthsFromStart <= months` guard and adds
the year's amount once. -/
theorem stepUpInnerMonth_foldl (n : ℕ) (r ya : ℚ) (year : ℕ)
    (h12 : year * 12 ≤ n) (h1 : 1 ≤ year) (p0 : ℚ × ℚ) :
    ∀ t, t ≤ 12 →
      ((List.range t).foldl (stepUpInnerMonth n r ya year) p0).1 = p0.1 + ya * t := by
  intro t
  induction t with
  | zero => intro _; simp
  | succ t ih =>
    intro ht
    rw [List.range_succ, List.foldl_append, List.foldl_cons, List.foldl_nil]
    have hguard : (year - 1) * 12 + (t + 1) ≤ n := by omega
    simp only [stepUpInnerMonth, if_pos hguard]
    rw [ih (by omega)]
    push_cast
    ring

theorem stepUpYearStep_cumInv (Y n : ℕ) (r s : ℚ) (st : StepUpBDState) (yi : ℕ)
    (h : (yi + 1) * 12 ≤ n) :
    (stepUpYearStep Y n r s st yi).cumulativeInvestment
      = st.cumulativeInvestment + st.yearlyAmount * 12 := by
  have hinner := stepUpInnerMonth_foldl n r st.yearlyAmount (yi + 1) h (by omega)
    (st.cumulativeInvestment, st.cumulativeValue) 12 le_rfl
  simp only [stepUpYearStep]
  rw [hinner]
  norm_num

theorem stepUpYearStep_ya (Y n : ℕ) (r s : ℚ) (st : StepUpBDState) (yi : ℕ) :
    (stepUpYearStep Y n r s st yi).yearlyAmount
      = if yi + 1 < Y then st.yearlyAmount * (1 + s) else st.yearlyAmount := rfl

theorem stepUpYearStep_entries_length (Y n : ℕ) (r s : ℚ) (st : StepUpBDState) (yi : ℕ) :
    (stepUpYearStep Y n r s st yi).entries.length = st.entries.length + 1 := by
  simp [stepUpYearStep]

theorem stepUpYearStep_entries_last (Y n : ℕ) (r s : ℚ) (st : StepUpBDState) (yi : ℕ) :
    ((stepUpYearStep Y n r s st yi).entries.getLast?).map StepUpYearEntry.investment
      = some ((stepUpYearStep Y n r s st yi).cumulativeInvestment) := by
  simp only [stepUpYearStep]
  rw [List.getLast?_concat]
  rfl

/-- Unfolding one outer iteration of the step-up breakdown loop. -/
theorem stepUpBDRun_succ (A r s : ℚ) (Y n y : ℕ) :
    stepUpBDRun A Y n r s (y + 1)
      = stepUpYearStep Y n r s (stepUpBDRun A Y n r s y) y := by
  unfold stepUpBDRun
  rw [List.range_succ, List.foldl_append, List.foldl_cons, List.foldl_nil]

/-- Invariant of the step-up breakdown loop: after `y ≤ Y` years the
cumulative investment is `12` escalated yearly contributions per year, the
pending yearly amount has been escalated `min y (Y-1)` times, and one entry
exists per year. -/
theorem stepUpBDRun_inv (A r s : ℚ) (Y n : ℕ) (hn : n = Y * 12) :
    ∀ y, y ≤ Y →
      (stepUpBDRun A Y n r s y).cumulativeInvestment
          = A * 12 * ∑ j in Finset.range y, (1 + s) ^ j
        ∧ (stepUpBDRun A Y n r s y).yearlyAmount = A * (1 + s) ^ min y (Y - 1)
        ∧ (stepUpBDRun A Y n r s y).entries.length = y := by
  intro y
  induction y with
  | zero =>
    intro _
    refine ⟨by simp [stepUpBDRun], ?_, rfl⟩
    simp [stepUpBDRun]
  | succ y ih =>
    intro hy
    obtain ⟨ih1, ih2, ih3⟩ := ih (by omega)
    have hrun := stepUpBDRun_succ A r s Y n y
    have hminy : min y (Y - 1) = y := by omega
    refine ⟨?_, ?_, ?_⟩
    · rw [hrun, stepUpYearStep_cumInv Y n r s _ y (by omega), ih1, ih2, hminy,
        Finset.sum_range_succ]
      ring
    · rw [hrun, stepUpYearStep_ya, ih2, hminy]
      split_ifs with h
      · have hmin1 : min (y + 1) (Y - 1) = y + 1 := by omega
        rw [hmin1, pow_succ]
        ring
      · have hmin1 : min (y + 1) (Y - 1) = y := by omega
        rw [hmin1]
    · rw [hrun, stepUpYearStep_entries_length, ih3]

/-! ### Flexible breakdown invariants -/

/-- The inner bucket loop of the flexible breakdown accumulates the
positive-entry sums over the covered index window. -/
theorem flexInnerMonth_foldl (cs : List JSEntry) (r : ℚ) :
    ∀ (k a : ℕ) (p0 : ℚ × ℚ × ℚ),
      (List.range' a k).foldl (flexInnerMonth cs r) p0
        = (p0.1 + ∑ i in Finset.range k, flexContribution cs (a + i),
           p0.2.1 + ∑ i in Finset.range k, flexGrowthTerm cs r (a + i),
           p0.2.2 + ∑ i in Finset.range k, flexContribution cs (a + i)) := by
  intro k
  induction k with
  | zero => intro a p0; simp
  | succ k ih =>
    intro a p0
    rw [List.range'_succ, List.foldl_cons, ih (a + 1)]
    have hshift : ∀ g : ℕ → ℚ, ∑ i in Finset.range (k + 1), g (a + i)
        = g a + ∑ i in Finset.range k, g (a + 1 + i) := by
      intro g
      rw [Finset.sum_range_succ']
      rw [add_comm]
      congr 1
      exact Finset.sum_congr rfl fun i _ => by rw [show a + (i + 1) = a + 1 + i by omega]
    rw [hshift (fun i => flexContribution cs i), hshift (fun i => flexGrowthTerm cs r i)]
    have hc : flexContribution cs a
        = if 0 < jsNum (cs.getD a JSEntry.nonNum) then jsNum (cs.getD a JSEntry.nonNum)
          else 0 := rfl
    have hg : flexGrowthTerm cs r a
        = if 0 < jsNum (cs.getD a JSEntry.nonNum) then
            jsNum (cs.getD a JSEntry.nonNum) * (1 + r) ^ (cs.length - a)
          else 0 := rfl
    by_cases h : 0 < jsNum (cs.getD a JSEntry.nonNum)
    · simp only [flexInnerMonth, if_pos h, Prod.mk.injEq]
      rw [hc, hg, if_pos h, if_pos h]
      refine ⟨by ring, by ring, by ring⟩
    · simp only [flexInnerMonth, if_neg h, Prod.mk.injEq]
      rw [hc, hg, if_neg h, if_neg h]
      refine ⟨by ring, by ring, by ring⟩

theorem flexYearStep_cumInv (cs : List JSEntry) (r : ℚ) (st : FlexBDState) (yi : ℕ) :
    (flexYearStep cs r st yi).cumulativeInvestment
      = st.cumulativeInvestment
        + ∑ i in Finset.range (min ((yi + 1) * 12) cs.length - yi * 12),
            flexContribution cs (yi * 12 + i) := by
  simp only [flexYearStep, Nat.add_sub_cancel]
  rw [flexInnerMonth_foldl]

theorem flexYearStep_entries_length (cs : List JSEntry) (r : ℚ) (st : FlexBDState) (yi : ℕ) :
    (flexYearStep cs r st yi).entries.length = st.entries.length + 1 := by
  simp [flexYearStep]

theorem flexYearStep_entries_last (cs : List JSEntry) (r : ℚ) (st : FlexBDState) (yi : ℕ) :
    ((flexYearStep cs r st yi).entries.getLast?).map FlexYearEntry.investment
      = some ((flexYearStep cs r st yi).cumulativeInvestment) := by
  simp only [flexYearStep]
  rw [List.getLast?_concat]
  rfl

/-- Unfolding one outer iteration of the flexible breakdown loop. -/
theorem flexBDRun_succ (cs : List JSEntry) (r : ℚ) (y : ℕ) :
    flexBDRun cs r (y + 1) = flexYearStep cs r (flexBDRun cs r y) y := by
  unfold flexBDRun
  rw [List.range_succ, List.foldl_append, List.foldl_cons, List.foldl_nil]

/-- Invariant of the flexible breakdown loop: after `y` of the
`ceil(months/12)` bucket years, the cumulative investment covers exactly
the first `min (y*12) months` indices, one entry per bucket. -/
theorem flexBDRun_inv (cs : List JSEntry) (r : ℚ) :
    ∀ y, y ≤ (cs.length + 11) / 12 →
      (flexBDRun cs r y).cumulativeInvestment
          = ∑ i in Finset.range (min (y * 12) cs.length), flexContribution cs i
        ∧ (flexBDRun cs r y).entries.length = y := by
  intro y
  induction y with
  | zero => intro _; exact ⟨by simp [flexBDRun], rfl⟩
  | succ y ih =>
    intro hy
    obtain ⟨ih1, ih2⟩ := ih (by omega)
    have hrun := flexBDRun_succ cs r y
    have hstart : y * 12 < cs.length := by omega
    constructor
    · rw [hrun, flexYearStep_cumInv, ih1]
      have hminy : min (y * 12) cs.length = y * 12 := by omega
      rw [hminy]
      have hle : y * 12 ≤ min ((y + 1) * 12) cs.length := by omega
      have hIco : ∑ i in Finset.range (min ((y + 1) * 12) cs.length - y * 12),
            flexContribution cs (y * 12 + i)
          = ∑ i in Finset.Ico (y * 12) (min ((y + 1) * 12) cs.length),
              flexContribution cs i := by
        rw [Finset.sum_Ico_eq_sum_range]
      rw [hIco, Finset.range_eq_Ico,
        Finset.sum_Ico_consecutive _ (Nat.zero_le _) hle, ← Finset.range_eq_Ico]
    · rw [hrun, flexYearStep_entries_length, ih2]

/-- The step-up main loop's total investment collapses to twelve escalated
yearly contributions per year. -/
theorem stepUpMainLoop_totalInvestment (A r s : ℚ) (Y : ℕ) :
    (stepUpMainLoop A (Y * 12) r s).1 = A * 12 * ∑ j in Finset.range Y, (1 + s) ^ j := by
  rw [stepUpMainLoop, stepUpMonth_foldl A r s (Y * 12) (Y * 12) le_rfl]
  dsimp only
  rw [show Y * 12 = 12 * Y by ring, sum_pow_div_twelve]
  ring

/-- Natural ceiling division by 12 agrees with the rational ceiling. -/
theorem natCeilDiv_twelve (m : ℕ) : ((m + 11) / 12 : ℕ) = ⌈(m : ℚ) / 12⌉₊ := by
  rcases Nat.eq_zero_or_pos m with hm | hm
  · subst hm
    norm_num
  · symm
    rw [Nat.ceil_eq_iff (by omega : ((m + 11) / 12 : ℕ) ≠ 0)]
    constructor
    · rw [lt_div_iff₀ (by norm_num : (0 : ℚ) < 12)]
      have h : ((m + 11) / 12 - 1) * 12 < m := by omega
      exact_mod_cast h
    · rw [div_le_iff₀ (by norm_num : (0 : ℚ) < 12)]
      have h : m ≤ (m + 11) / 12 * 12 := by omega
      exact_mod_cast h

/-! ### Claim C5 — timeline length and final cumulative contribution -/

/-- C5: for every calculation with at least one period the timeline has one
entry per (possibly partial) year — `ceil(periodCount/12)` entries — and
the last entry's cumulative contribution equals the top-level
`totalInvestment` exactly, for each of the three calculators. -/
theorem timeline_consistency :
    (∀ (A : ℚ) (years : ℕ) (category : String) (inflationRate : ℚ), 1 ≤ years →
      (calculateRegularSIP A years category inflationRate).yearlyBreakdown.length = years
      ∧ ((calculateRegularSIP A years category inflationRate).yearlyBreakdown.getLast?).map
            RegularYearEntry.investment
          = some (calculateRegularSIP A years category inflationRate).totalInvestment)
    ∧ (∀ (A : ℚ) (years : ℕ) (stepUpPercent inflationRate : ℚ), 1 ≤ years →
      (calculateStepUpSIP A years stepUpPercent inflationRate).yearlyBreakdown.length = years
      ∧ ((calculateStepUpSIP A years stepUpPercent inflationRate).yearlyBreakdown.getLast?).map
            StepUpYearEntry.investment
          = some (calculateStepUpSIP A years stepUpPercent inflationRate).totalInvestment)
    ∧ (∀ (cs : List JSEntry) (inflationRate : ℚ), 1 ≤ cs.length →
      (calculateFlexibleSIP cs inflationRate).yearlyBreakdown.length = (cs.length + 11) / 12
      ∧ ((calculateFlexibleSIP cs inflationRate).yearlyBreakdown.getLast?).map
            FlexYearEntry.investment
          = some (calculateFlexibleSIP cs inflationRate).totalInvestment)
    ∧ (∀ m : ℕ, ((m + 11) / 12 : ℕ) = ⌈(m : ℚ) / 12⌉₊) := by
  refine ⟨?_, ?_, ?_, natCeilDiv_twelve⟩
  · intro A years category inflationRate hy
    obtain ⟨y', rfl⟩ : ∃ y', years = y' + 1 := ⟨years - 1, by omega⟩
    simp only [calculateRegularSIP]
    refine ⟨by simp, ?_⟩
    rw [List.range_succ, List.map_append]
    simp only [List.map_cons, List.map_nil]
    rw [List.getLast?_concat]
    rfl
  · intro A years stepUpPercent inflationRate hy
    obtain ⟨Y', rfl⟩ : ∃ Y', years = Y' + 1 := ⟨years - 1, by omega⟩
    have hbd : (calculateStepUpSIP A (Y' + 1) stepUpPercent inflationRate).yearlyBreakdown
        = (stepUpBDRun A (Y' + 1) ((Y' + 1) * 12) (15 / 100 / 12)
            (stepUpPercent / 100) (Y' + 1)).entries := rfl
    have hti : (calculateStepUpSIP A (Y' + 1) stepUpPercent inflationRate).totalInvestment
        = (stepUpMainLoop A ((Y' + 1) * 12) (15 / 100 / 12) (stepUpPercent / 100)).1 := rfl
    obtain ⟨inv1, _, inv3⟩ := stepUpBDRun_inv A (15 / 100 / 12) (stepUpPercent / 100)
      (Y' + 1) ((Y' + 1) * 12) rfl (Y' + 1) le_rfl
    refine ⟨?_, ?_⟩
    · rw [hbd]
      exact inv3
    · rw [hbd, hti, stepUpBDRun_succ, stepUpYearStep_entries_last, ← stepUpBDRun_succ]
      congr 1
      rw [inv1, stepUpMainLoop_totalInvestment]
  · intro cs inflationRate hlen
    have hY1 : 1 ≤ (cs.length + 11) / 12 := by omega
    have hbd : (calculateFlexibleSIP cs inflationRate).yearlyBreakdown
        = (flexBDRun cs (12 / 100 / 12) ((cs.length + 11) / 12)).entries := rfl
    have hti : (calculateFlexibleSIP cs inflationRate).totalInvestment
        = (flexMainLoop cs (12 / 100 / 12)).1 := rfl
    obtain ⟨inv1, inv2⟩ := flexBDRun_inv cs (12 / 100 / 12) ((cs.length + 11) / 12) le_rfl
    refine ⟨?_, ?_⟩
    · rw [hbd]
      exact inv2
    · obtain ⟨Y1, hY1'⟩ : ∃ k, (cs.length + 11) / 12 = k + 1 :=
        ⟨(cs.length + 11) / 12 - 1, by omega⟩

      rw [hbd, hti, hY1', flexBDRun_succ, flexYearStep_entries_last, ← flexBDRun_succ, ← hY1']
      congr 1
      rw [inv1, flexMainLoop_eq]
      have hmin : min ((cs.length + 11) / 12 * 12) cs.length = cs.length := by omega
      rw [hmin]

/-- Witness for C5 at concrete one-period-plus plans. -/
theorem timeline_consistency_witness :
    (calculateRegularSIP 2 1 "mid" 0).yearlyBreakdown.length = 1
    ∧ ((calculateRegularSIP 2 1 "mid" 0).yearlyBreakdown.getLast?).map
        RegularYearEntry.investment = some (calculateRegularSIP 2 1 "mid" 0).totalInvestment
    ∧ (calculateStepUpSIP 2 1 5 0).yearlyBreakdown.length = 1
    ∧ ((calculateStepUpSIP 2 1 5 0).yearlyBreakdown.getLast?).map
        StepUpYearEntry.investment = some (calculateStepUpSIP 2 1 5 0).totalInvestment
    ∧ (calculateFlexibleSIP [JSEntry.num 5] 0).yearlyBreakdown.length = 1
    ∧ ((calculateFlexibleSIP [JSEntry.num 5] 0).yearlyBreakdown.getLast?).map
        FlexYearEntry.investment = some (calculateFlexibleSIP [JSEntry.num 5] 0).totalInvestment := by
  obtain ⟨h1, h2, h3, _⟩ := timeline_consistency
  obtain ⟨a1, a2⟩ := h1 2 1 "mid" 0 le_rfl
  obtain ⟨b1, b2⟩ := h2 2 1 5 0 le_rfl
  obtain ⟨c1, c2⟩ := h3 [JSEntry.num 5] 0 (by norm_num)
  exact ⟨a1, a2, b1, b2, c1, c2⟩

end SIPCalc
